import Mathlib

/-!
Verification of the SBR signal/score/gap/budget pipeline.

This file gives a shallow embedding, in Lean 4, of the deterministic core of
the repository (`app/signal_processor.py`, `app/scoring_engine.py`,
`app/budget_engine.py`, `app/roi_engine.py`, `app/segmentation_service.py`)
and proves the specified properties of that core.

Modelling conventions:
* Python floats are modelled as rationals (`ℚ`); Python's `round(x, n)` is
  modelled by rounding `x * 10^n` to the nearest integer (ties are irrelevant
  to every statement below).
* Python dicts holding records with possibly-missing keys are modelled as
  structures with `Option` fields; `d.get(k, default)` becomes `Option.getD`.
* Python's `int(x)` (truncation toward zero) is modelled by `pyInt`.
* Leading underscores of Python helper names are dropped (`_get_budget_recommendation`
  becomes `get_budget_recommendation`), as Lean identifiers cannot start with one.
-/

namespace SBR

/-- Python `round(x, 2)` on a rational (round to nearest, 2 decimal places). -/
def round2 (q : ℚ) : ℚ := (round (q * 100) : ℤ) / 100

/-- Python `round(x, 3)` on a rational (round to nearest, 3 decimal places). -/
def round3 (q : ℚ) : ℚ := (round (q * 1000) : ℤ) / 1000

/-- Python `int(x)`: truncation toward zero. -/
def pyInt (q : ℚ) : ℤ := if 0 ≤ q then ⌊q⌋ else ⌈q⌉

/-- A customer record (`customer.get('mfa_enforced', False)` is used). -/
structure Customer where
  mfa_enforced : Option Bool
deriving DecidableEq

/-- An asset record, fields as read by `SignalProcessor.derive_signals`. -/
structure Asset where
  type : Option String
  patchstatus : Option String
  backup_enabled : Option Bool
  antivirusstatus : Option String
deriving DecidableEq

/-- A ticket record (`t.get('met_sla') is True` is the only field read). -/
structure Ticket where
  met_sla : Option Bool
deriving DecidableEq

/-- A user record (`u.get('active', True)` is the only field read). -/
structure User where
  active : Option Bool
deriving DecidableEq

/-- The signal mapping produced by `SignalProcessor.derive_signals`. -/
structure Signals where
  patch_compliance : ℚ
  backup_status : ℚ
  mfa : ℚ
  edr : ℚ
  response_time_sla : ℚ
  incident_volume : ℚ
  total_assets : ℕ
  total_users : ℕ
  total_servers : ℕ
  total_endpoints : ℕ
deriving DecidableEq

/-- `SignalProcessor.derive_signals` (`app/signal_processor.py`). -/
def derive_signals (customer : Customer) (assets : List Asset)
    (tickets : List Ticket) (users : List User) : Signals :=
  let patch_compliance : ℚ :=
    if assets.isEmpty then 0
    else
      let compliant_assets := assets.countP
        (fun a => a.patchstatus == some "Compliant" || a.patchstatus == some "UpToDate")
      round2 ((compliant_assets : ℚ) / (assets.length : ℚ) * 100)
  let backup_status : ℚ :=
    if assets.isEmpty then 0
    else
      let servers := assets.filter (fun a => a.type == some "Server")
      if servers.isEmpty then 100
      else
        let backed_up := servers.countP (fun s => s.backup_enabled == some true)
        round2 ((backed_up : ℚ) / (servers.length : ℚ) * 100)
  let mfa : ℚ := if customer.mfa_enforced.getD false then 100 else 0
  let edr : ℚ :=
    if assets.isEmpty then 0
    else
      let endpoints := assets.filter
        (fun a => a.type == some "Workstation" || a.type == some "Laptop" ||
          a.type == some "Server")
      if endpoints.isEmpty then 0
      else
        let protected_count := endpoints.countP
          (fun e => e.antivirusstatus == some "Protected" || e.antivirusstatus == some "Enabled")
        round2 ((protected_count : ℚ) / (endpoints.length : ℚ) * 100)
  let response_time_sla : ℚ :=
    if tickets.isEmpty then 100
    else
      let met_sla := tickets.countP (fun t => t.met_sla == some true)
      round2 ((met_sla : ℚ) / (tickets.length : ℚ) * 100)
  let incident_volume : ℚ :=
    if tickets.isEmpty then 0 else round2 ((tickets.length : ℚ) / 3)
  { patch_compliance := patch_compliance
    backup_status := backup_status
    mfa := mfa
    edr := edr
    response_time_sla := response_time_sla
    incident_volume := incident_volume
    total_assets := assets.length
    total_users := (users.filter (fun u => u.active.getD true)).length
    total_servers := (assets.filter (fun a => a.type == some "Server")).length
    total_endpoints := (assets.filter
      (fun a => a.type == some "Workstation" || a.type == some "Laptop")).length }

/-- The NIST CSF score vector of `ScoringEngine.calculate_nist_scores`. -/
structure Scores where
  Identify : ℚ
  Protect : ℚ
  Detect : ℚ
  Respond : ℚ
  Recover : ℚ
  Overall : ℚ
deriving DecidableEq

/-- `ScoringEngine.calculate_nist_scores` (`app/scoring_engine.py`). -/
def calculate_nist_scores (signals : Signals) : Scores :=
  let identify : ℚ := if 0 < signals.total_assets then 1 else 0
  let protect : ℚ := round3 ((signals.patch_compliance / 100 + signals.mfa / 100 +
    signals.edr / 100 + signals.backup_status / 100) / 4)
  let detect : ℚ := round3 (signals.edr / 100)
  let respond : ℚ := round3 (signals.response_time_sla / 100)
  let recover : ℚ := round3 (signals.backup_status / 100)
  let overall : ℚ := round3 (identify * 0.15 + protect * 0.30 + detect * 0.20 +
    respond * 0.20 + recover * 0.15)
  { Identify := identify, Protect := protect, Detect := detect,
    Respond := respond, Recover := recover, Overall := overall }

/-- The threshold configuration handed to `ScoringEngine` (all four keys present). -/
structure Thresholds where
  THRESHOLD_PATCH_COMPLIANCE : ℚ
  THRESHOLD_BACKUP_SUCCESS : ℚ
  THRESHOLD_EDR_COVERAGE : ℚ
  THRESHOLD_SLA_ATTAINMENT : ℚ
deriving DecidableEq

/-- A gap record as built by `ScoringEngine.identify_gaps`. -/
structure Gap where
  category : String
  signal : String
  current_value : ℚ
  threshold : ℚ
  severity : String
  issue : String
  impact : String
deriving DecidableEq

/-- `ScoringEngine.identify_gaps` (`app/scoring_engine.py`): five independent
checks appended in a fixed order. -/
def identify_gaps (signals : Signals) (thresholds : Thresholds) : List Gap :=
  (if signals.patch_compliance < thresholds.THRESHOLD_PATCH_COMPLIANCE then
    [{ category := "Protect"
       signal := "patch_compliance"
       current_value := signals.patch_compliance
       threshold := thresholds.THRESHOLD_PATCH_COMPLIANCE
       severity := "High"
       issue := "Patch compliance below best practice threshold"
       impact := "Increased vulnerability to known exploits and security breaches" }]
  else []) ++
  (if signals.backup_status < thresholds.THRESHOLD_BACKUP_SUCCESS then
    [{ category := "Recover"
       signal := "backup_status"
       current_value := signals.backup_status
       threshold := thresholds.THRESHOLD_BACKUP_SUCCESS
       severity := "Critical"
       issue := "Backup coverage below best practice threshold"
       impact := "Risk of data loss and extended downtime in disaster scenarios" }]
  else []) ++
  (if signals.edr < thresholds.THRESHOLD_EDR_COVERAGE then
    [{ category := "Protect/Detect"
       signal := "edr"
       current_value := signals.edr
       threshold := thresholds.THRESHOLD_EDR_COVERAGE
       severity := "High"
       issue := "EDR/Antivirus coverage below best practice threshold"
       impact := "Limited threat detection and response capabilities" }]
  else []) ++
  (if signals.response_time_sla < thresholds.THRESHOLD_SLA_ATTAINMENT then
    [{ category := "Respond"
       signal := "response_time_sla"
       current_value := signals.response_time_sla
       threshold := thresholds.THRESHOLD_SLA_ATTAINMENT
       severity := "Medium"
       issue := "SLA attainment below target"
       impact := "Delayed incident response affecting business operations" }]
  else []) ++
  (if signals.mfa < 100 then
    [{ category := "Protect"
       signal := "mfa"
       current_value := signals.mfa
       threshold := 100
       severity := "Critical"
       issue := "Multi-Factor Authentication not enforced"
       impact := "High risk of account compromise and unauthorized access" }]
  else [])

/-- The unit-cost configuration handed to `BudgetEngine` (all four keys present). -/
structure UnitCosts where
  COST_MFA_PER_USER : ℚ
  COST_EDR_PER_ENDPOINT : ℚ
  COST_BACKUP_PER_SERVER : ℚ
  COST_SIEM_PER_USER : ℚ
deriving DecidableEq

/-- A budget line item as built by `BudgetEngine.calculate_budget`. -/
structure LineItem where
  service : String
  unit : String
  quantity : ℤ
  unit_cost : ℚ
  monthly_cost : ℚ
  annual_cost : ℚ
  note : Option String
deriving DecidableEq

/-- The budget result of `BudgetEngine.calculate_budget`. -/
structure Budget where
  services : List LineItem
  total_monthly : ℚ
  total_annual : ℚ
deriving DecidableEq

/-- `BudgetEngine.calculate_budget` (`app/budget_engine.py`).  Each of the four
conditional blocks of the Python loop contributes (its line items, its raw
monthly cost added to the running `total_monthly`); the Python accumulation
`budget['total_monthly'] += ...` is the sum of the four contributions. -/
def calculate_budget (unit_costs : UnitCosts) (signals : Signals)
    (gaps : List Gap) : Budget :=
  let user_count := signals.total_users
  let endpoint_count := signals.total_endpoints
  let server_count := signals.total_servers
  let needs_mfa := gaps.any (fun g => g.signal == "mfa")
  let needs_edr := gaps.any (fun g => g.signal == "edr")
  let needs_backup := gaps.any (fun g => g.signal == "backup_status")
  let mfaPart : List LineItem × ℚ :=
    if needs_mfa && decide (0 < user_count) then
      let mfa_monthly := (user_count : ℚ) * unit_costs.COST_MFA_PER_USER
      ([{ service := "Multi-Factor Authentication"
          unit := "per user"
          quantity := (user_count : ℤ)
          unit_cost := unit_costs.COST_MFA_PER_USER
          monthly_cost := round2 mfa_monthly
          annual_cost := round2 (mfa_monthly * 12)
          note := none }], mfa_monthly)
    else ([], 0)
  let edrPart : List LineItem × ℚ :=
    if needs_edr && decide (0 < endpoint_count) then
      let edr_coverage := signals.edr / 100
      let uncovered_endpoints := pyInt ((endpoint_count : ℚ) * (1 - edr_coverage))
      if 0 < uncovered_endpoints then
        let edr_monthly := (uncovered_endpoints : ℚ) * unit_costs.COST_EDR_PER_ENDPOINT
        ([{ service := "Endpoint Detection & Response"
            unit := "per endpoint"
            quantity := uncovered_endpoints
            unit_cost := unit_costs.COST_EDR_PER_ENDPOINT
            monthly_cost := round2 edr_monthly
            annual_cost := round2 (edr_monthly * 12)
            note := none }], edr_monthly)
      else ([], 0)
    else ([], 0)
  let backupPart : List LineItem × ℚ :=
    if needs_backup && decide (0 < server_count) then
      let backup_coverage := signals.backup_status / 100
      let uncovered_servers := pyInt ((server_count : ℚ) * (1 - backup_coverage))
      if 0 < uncovered_servers then
        let backup_monthly := (uncovered_servers : ℚ) * unit_costs.COST_BACKUP_PER_SERVER
        ([{ service := "Server Backup Solution"
            unit := "per server"
            quantity := uncovered_servers
            unit_cost := unit_costs.COST_BACKUP_PER_SERVER
            monthly_cost := round2 backup_monthly
            annual_cost := round2 (backup_monthly * 12)
            note := none }], backup_monthly)
      else ([], 0)
    else ([], 0)
  let high_severity_gaps := gaps.countP (fun g => g.severity == "High" || g.severity == "Critical")
  let siemPart : List LineItem × ℚ :=
    if decide (3 ≤ high_severity_gaps) && decide (0 < user_count) then
      let siem_monthly := (user_count : ℚ) * unit_costs.COST_SIEM_PER_USER
      ([{ service := "SIEM / Security Monitoring"
          unit := "per user"
          quantity := (user_count : ℤ)
          unit_cost := unit_costs.COST_SIEM_PER_USER
          monthly_cost := round2 siem_monthly
          annual_cost := round2 (siem_monthly * 12)
          note := some "Recommended due to multiple security gaps" }], siem_monthly)
    else ([], 0)
  let total_monthly := round2 (mfaPart.2 + edrPart.2 + backupPart.2 + siemPart.2)
  { services := mfaPart.1 ++ edrPart.1 ++ backupPart.1 ++ siemPart.1
    total_monthly := total_monthly
    total_annual := round2 (total_monthly * 12) }

/-- One item of a budget tier in `ROIEngine.calculate_tiered_budget` (the
constant `outcome` narrative strings of the Python dicts are not modelled). -/
structure TierItem where
  issue : String
  cost : ℚ
deriving DecidableEq

/-- One tier of `ROIEngine.calculate_tiered_budget` (the constant narrative
strings `name`/`outcome`/`risk_if_not_done` are not modelled). -/
structure TierInfo where
  cost : ℚ
  items : List TierItem
deriving DecidableEq

/-- The recommendation string of `ROIEngine._get_budget_recommendation`,
modelled by which of the four format strings is produced and the numbers
interpolated into it. -/
inductive BudgetRecommendation where
  | allThree (budget : ℚ)
  | tier3Fraction (budget pct : ℚ)
  | tier2Fraction (budget pct : ℚ)
  | shortfall (budget amount : ℚ)
deriving DecidableEq

/-- `ROIEngine._get_budget_recommendation` (`app/roi_engine.py`). -/
def get_budget_recommendation (budget tier1 tier1_2 all_tiers : ℚ) :
    BudgetRecommendation :=
  if budget ≥ all_tiers then .allThree budget
  else if budget ≥ tier1_2 then
    .tier3Fraction budget ((budget - tier1_2) / (all_tiers - tier1_2) * 100)
  else if budget ≥ tier1 then
    .tier2Fraction budget ((budget - tier1) / (tier1_2 - tier1) * 100)
  else .shortfall budget (tier1 - budget)

/-- The result of `ROIEngine.calculate_tiered_budget` (narrative strings and
the static scenario descriptions are not modelled; `tier1_only`,
`tier1_and_2`, `all_tiers` are the three `budget_scenarios` costs). -/
structure TieredBudget where
  tier1 : TierInfo
  tier2 : TierInfo
  tier3 : TierInfo
  tier1_only : ℚ
  tier1_and_2 : ℚ
  all_tiers : ℚ
  recommendation : BudgetRecommendation
deriving DecidableEq

/-- `ROIEngine.calculate_tiered_budget` (`app/roi_engine.py`).  The Python loop
appends each gap to exactly one tier by severity and accumulates that tier's
cost; this is written as a filter per severity class with the cost as the sum
of the built items' costs. -/
def calculate_tiered_budget (total_budget : ℚ) (gaps : List Gap)
    (current_monthly_cost : ℚ) : TieredBudget :=
  let tier1_items := (gaps.filter (fun g => g.severity == "Critical")).map
    (fun g => { issue := g.issue, cost := current_monthly_cost * 0.3 : TierItem })
  let tier2_items := (gaps.filter (fun g => g.severity == "High")).map
    (fun g => { issue := g.issue, cost := current_monthly_cost * 0.2 : TierItem })
  let tier3_items := (gaps.filter
    (fun g => !(g.severity == "Critical") && !(g.severity == "High"))).map
    (fun g => { issue := g.issue, cost := current_monthly_cost * 0.1 : TierItem })
  let tier1_cost := (tier1_items.map TierItem.cost).sum
  let tier2_cost := (tier2_items.map TierItem.cost).sum
  let tier3_cost := (tier3_items.map TierItem.cost).sum
  let tier1_only := tier1_cost
  let tier1_and_2 := tier1_cost + tier2_cost
  let all_tiers := tier1_cost + tier2_cost + tier3_cost
  { tier1 := { cost := tier1_cost, items := tier1_items }
    tier2 := { cost := tier2_cost, items := tier2_items }
    tier3 := { cost := tier3_cost, items := tier3_items }
    tier1_only := tier1_only
    tier1_and_2 := tier1_and_2
    all_tiers := all_tiers
    recommendation := get_budget_recommendation total_budget tier1_only tier1_and_2 all_tiers }

/-- An agreement record (`a.get('status')` is the field health scoring reads). -/
structure Agreement where
  status : Option String
deriving DecidableEq

/-- A meeting record (only the list length matters to health scoring). -/
structure Meeting where
  scheduled_date : Option String
deriving DecidableEq

/-- A report record as read by the segmentation service.  `generated_at` is an
ISO-8601 timestamp string in the source; such strings compare lexicographically
exactly as the instants they denote compare chronologically, so the timestamp
is modelled as a natural number carrying that total order. -/
structure Report where
  generated_at : Option ℕ
  overall_score : Option ℚ
deriving DecidableEq

/-- The result of `SegmentationService._calculate_health_score`. -/
structure HealthData where
  score : ℤ
  status : String
  factors : List String
deriving DecidableEq

/-- `SegmentationService._calculate_health_score` (`app/segmentation_service.py`).
Note that the "latest report" whose `overall_score` drives the security-posture
deduction is `reports[0]`, the first element of the list as passed in. -/
def calculate_health_score (agreements : List Agreement) (meetings : List Meeting)
    (reports : List Report) : HealthData :=
  let agreementDed : ℤ × List String :=
    if agreements.isEmpty || !(agreements.any (fun a => a.status == some "active")) then
      (30, ["No active agreements"])
    else (0, [])
  let meetingDed : ℤ × List String :=
    if meetings.isEmpty then (25, ["No recent meetings"])
    else if meetings.length < 2 then (15, ["Low meeting frequency"])
    else (0, [])
  let reportDed : ℤ × List String :=
    if reports.isEmpty then (25, ["No reports generated"])
    else if reports.length < 2 then (10, ["Infrequent reporting"])
    else (0, [])
  let securityDed : ℤ × List String :=
    match reports with
    | [] => (0, [])
    | latest_report :: _ =>
      let security_score := latest_report.overall_score.getD 0
      if security_score < 50 then (20, ["Poor security posture"])
      else if security_score < 70 then (10, ["Below-average security"])
      else (0, [])
  let score : ℤ := 100 - agreementDed.1 - meetingDed.1 - reportDed.1 - securityDed.1
  let status : String :=
    if score ≥ 80 then "excellent"
    else if score ≥ 60 then "good"
    else if score ≥ 40 then "at_risk"
    else "critical"
  { score := max 0 score
    status := status
    factors := agreementDed.2 ++ meetingDed.2 ++ reportDed.2 ++ securityDed.2 }

/-- The report of a list with the greatest `generated_at` (missing timestamps
read as the least value), i.e. the most recent timestamp. -/
def latestByGeneratedAt (reports : List Report) : Option Report :=
  reports.foldl
    (fun acc r =>
      match acc with
      | none => some r
      | some b => if b.generated_at.getD 0 < r.generated_at.getD 0 then some r else some b)
    none

/-- The health score as claim C8 words it: identical to
`calculate_health_score`, except that the security-posture deduction is driven
by the report with the most recent `generated_at` timestamp regardless of the
list's order.  This definition follows the claim's words, for comparison with
the code's `calculate_health_score`. -/
def calculate_health_score_claimed (agreements : List Agreement)
    (meetings : List Meeting) (reports : List Report) : HealthData :=
  let agreementDed : ℤ × List String :=
    if agreements.isEmpty || !(agreements.any (fun a => a.status == some "active")) then
      (30, ["No active agreements"])
    else (0, [])
  let meetingDed : ℤ × List String :=
    if meetings.isEmpty then (25, ["No recent meetings"])
    else if meetings.length < 2 then (15, ["Low meeting frequency"])
    else (0, [])
  let reportDed : ℤ × List String :=
    if reports.isEmpty then (25, ["No reports generated"])
    else if reports.length < 2 then (10, ["Infrequent reporting"])
    else (0, [])
  let securityDed : ℤ × List String :=
    match latestByGeneratedAt reports with
    | none => (0, [])
    | some latest_report =>
      let security_score := latest_report.overall_score.getD 0
      if security_score < 50 then (20, ["Poor security posture"])
      else if security_score < 70 then (10, ["Below-average security"])
      else (0, [])
  let score : ℤ := 100 - agreementDed.1 - meetingDed.1 - reportDed.1 - securityDed.1
  let status : String :=
    if score ≥ 80 then "excellent"
    else if score ≥ 60 then "good"
    else if score ≥ 40 then "at_risk"
    else "critical"
  { score := max 0 score
    status := status
    factors := agreementDed.2 ++ meetingDed.2 ++ reportDed.2 ++ securityDed.2 }

/-- A rational that is a whole number of cents (its double-rounding to 2
decimal places is exact). -/
def centsOnly (q : ℚ) : Prop := (q * 100).den = 1

lemma centsOnly_intCast_mul (k : ℤ) (q : ℚ) (h : centsOnly q) :
    centsOnly ((k : ℚ) * q) := by
  unfold centsOnly at h ⊢
  have hq : ((q * 100).num : ℚ) = q * 100 := (Rat.den_eq_one_iff _).mp h
  have : (k : ℚ) * q * 100 = (((k * (q * 100).num : ℤ) : ℚ)) := by
    push_cast
    rw [hq]; ring
  rw [this, Rat.den_intCast]

lemma round2_eq_self_of_centsOnly {q : ℚ} (h : centsOnly q) : round2 q = q := by
  have hq : ((q * 100).num : ℚ) = q * 100 := (Rat.den_eq_one_iff _).mp h
  have hr : round (q * 100) = (q * 100).num := by
    conv_lhs => rw [← hq]
    rw [round_intCast]
  rw [round2, hr, div_eq_iff (by norm_num : (100 : ℚ) ≠ 0)]
  exact hq

lemma centsOnly_round2 (q : ℚ) : centsOnly (round2 q) := by
  unfold centsOnly round2
  have : ((round (q * 100) : ℤ) : ℚ) / 100 * 100 = ((round (q * 100) : ℤ) : ℚ) := by
    field_simp
  rw [this, Rat.den_intCast]

lemma centsOnly_mul_twelve {q : ℚ} (h : centsOnly q) : centsOnly (q * 12) := by
  have := centsOnly_intCast_mul 12 q h
  rwa [show ((12 : ℤ) : ℚ) * q = q * 12 by push_cast; ring] at this

/-- C2 (amended): for a non-empty asset list containing no `Server`-typed
asset, `derive_signals` returns `backup_status = 100`. -/
theorem backup_status_eq_100_of_no_servers (customer : Customer)
    (assets : List Asset) (tickets : List Ticket) (users : List User)
    (hne : assets ≠ []) (hns : ∀ a ∈ assets, a.type ≠ some "Server") :
    (derive_signals customer assets tickets users).backup_status = 100 := by
  have hfil : assets.filter (fun a => a.type == some "Server") = [] := by
    rw [List.filter_eq_nil_iff]
    intro a ha
    simpa using hns a ha
  simp [derive_signals, hfil, hne]

/-- C2 witness: one `Workstation` asset, no server, yields `backup_status = 100`. -/
theorem backup_status_eq_100_of_no_servers_witness :
    (derive_signals ⟨none⟩ [⟨some "Workstation", none, none, none⟩] [] []).backup_status = 100 :=
  backup_status_eq_100_of_no_servers ⟨none⟩ [⟨some "Workstation", none, none, none⟩] [] []
    (by simp) (by simp)

/-- C2 counterexample: with an empty asset list (hence zero servers),
`derive_signals` returns `backup_status = 0`, not `100` as claimed. -/
theorem backup_status_empty_assets_ne_100 :
    (derive_signals ⟨none⟩ [] [] []).backup_status ≠ 100 := by
  simp [derive_signals]

/-- C7 (amended): over an arbitrary user list, `total_users` counts exactly
the records whose `active` field is missing or `true` (`get('active', True)`):
a record lacking the field entirely is treated as active and IS counted. -/
theorem total_users_counts_missing_active (customer : Customer)
    (assets : List Asset) (tickets : List Ticket) (users : List User) :
    (derive_signals customer assets tickets users).total_users =
      users.countP (fun u => u.active == none || u.active == some true) := by
  show (users.filter (fun u => u.active.getD true)).length = _
  rw [List.countP_eq_length_filter]
  congr 1
  apply List.filter_congr
  intro u _
  rcases u.active with _ | _ | _ <;> rfl

/-- C7 witness: in a mixed list (`active` false, `active` missing, `active`
true) the missing-field record is counted, giving 2 of 3. -/
theorem total_users_counts_missing_active_witness :
    (derive_signals ⟨none⟩ [] [] [⟨some false⟩, ⟨none⟩, ⟨some true⟩]).total_users = 2 := by
  simp [derive_signals]

/-- C7 counterexample: a user list whose single record lacks `active` yields
`total_users = 1`, not `0` as the claim (missing boolean → false) states. -/
theorem total_users_missing_active_ne_zero :
    (derive_signals ⟨none⟩ [] [] [⟨none⟩]).total_users ≠ 0 := by
  simp [derive_signals]

/-- C4: `Overall` is the 3-decimal rounding of the fixed weighted sum
0.15·Identify + 0.30·Protect + 0.20·Detect + 0.20·Respond + 0.15·Recover,
where `Identify` is the 0/1 visibility flag and the four other inputs are the
already-3-decimal-rounded category scores; the weights sum to exactly 1. -/
theorem overall_is_weighted_sum (s : Signals) :
    (calculate_nist_scores s).Overall =
      round3 (0.15 * (calculate_nist_scores s).Identify +
        0.30 * (calculate_nist_scores s).Protect +
        0.20 * (calculate_nist_scores s).Detect +
        0.20 * (calculate_nist_scores s).Respond +
        0.15 * (calculate_nist_scores s).Recover) ∧
    (calculate_nist_scores s).Identify = (if 0 < s.total_assets then 1 else 0) ∧
    (calculate_nist_scores s).Protect = round3 ((s.patch_compliance / 100 +
      s.mfa / 100 + s.edr / 100 + s.backup_status / 100) / 4) ∧
    (calculate_nist_scores s).Detect = round3 (s.edr / 100) ∧
    (calculate_nist_scores s).Respond = round3 (s.response_time_sla / 100) ∧
    (calculate_nist_scores s).Recover = round3 (s.backup_status / 100) ∧
    (0.15 + 0.30 + 0.20 + 0.20 + 0.15 : ℚ) = 1 := by
  refine ⟨?_, rfl, rfl, rfl, rfl, rfl, by norm_num⟩
  have h : ∀ x1 x2 x3 x4 x5 : ℚ, x1 * 0.15 + x2 * 0.30 + x3 * 0.20 + x4 * 0.20 + x5 * 0.15 =
      0.15 * x1 + 0.30 * x2 + 0.20 * x3 + 0.20 * x4 + 0.15 * x5 := by
    intros; ring
  exact congrArg round3 (h _ _ _ _ _)

/-- C3: the gap list is the five independent checks appended in the fixed
order patch → backup → EDR → SLA → MFA with severities High, Critical, High,
Medium, Critical, and the MFA gap is emitted iff the `mfa` signal is below
100, independently of the configured thresholds. -/
theorem identify_gaps_order_severities_mfa (s : Signals) (t : Thresholds) :
    ((identify_gaps s t).map (fun g => (g.signal, g.severity)) =
      (if s.patch_compliance < t.THRESHOLD_PATCH_COMPLIANCE then
        [("patch_compliance", "High")] else []) ++
      (if s.backup_status < t.THRESHOLD_BACKUP_SUCCESS then
        [("backup_status", "Critical")] else []) ++
      (if s.edr < t.THRESHOLD_EDR_COVERAGE then [("edr", "High")] else []) ++
      (if s.response_time_sla < t.THRESHOLD_SLA_ATTAINMENT then
        [("response_time_sla", "Medium")] else []) ++
      (if s.mfa < 100 then [("mfa", "Critical")] else [])) ∧
    ((∃ g ∈ identify_gaps s t, g.signal = "mfa") ↔ s.mfa < 100) := by
  constructor
  · unfold identify_gaps
    split_ifs <;> simp
  · unfold identify_gaps
    split_ifs <;> simp_all [not_lt]

/-- The four configurable threshold keys of the scoring engine. -/
inductive ThresholdName where
  | patch
  | backup
  | edr
  | sla
deriving DecidableEq

/-- The configured value of a named threshold. -/
def ThresholdName.value : ThresholdName → Thresholds → ℚ
  | .patch, t => t.THRESHOLD_PATCH_COMPLIANCE
  | .backup, t => t.THRESHOLD_BACKUP_SUCCESS
  | .edr, t => t.THRESHOLD_EDR_COVERAGE
  | .sla, t => t.THRESHOLD_SLA_ATTAINMENT

/-- The signal a named threshold governs. -/
def ThresholdName.signalName : ThresholdName → String
  | .patch => "patch_compliance"
  | .backup => "backup_status"
  | .edr => "edr"
  | .sla => "response_time_sla"

lemma signal_patch_mem (s : Signals) (t : Thresholds) (g : Gap)
    (hg : g ∈ identify_gaps s t) (h : g.signal = "patch_compliance") :
    s.patch_compliance < t.THRESHOLD_PATCH_COMPLIANCE := by
  unfold identify_gaps at hg
  split_ifs at hg <;> simp_all <;> aesop

lemma signal_backup_mem (s : Signals) (t : Thresholds) (g : Gap)
    (hg : g ∈ identify_gaps s t) (h : g.signal = "backup_status") :
    s.backup_status < t.THRESHOLD_BACKUP_SUCCESS := by
  unfold identify_gaps at hg
  split_ifs at hg <;> simp_all <;> aesop

lemma signal_edr_mem (s : Signals) (t : Thresholds) (g : Gap)
    (hg : g ∈ identify_gaps s t) (h : g.signal = "edr") :
    s.edr < t.THRESHOLD_EDR_COVERAGE := by
  unfold identify_gaps at hg
  split_ifs at hg <;> simp_all <;> aesop

lemma signal_sla_mem (s : Signals) (t : Thresholds) (g : Gap)
    (hg : g ∈ identify_gaps s t) (h : g.signal = "response_time_sla") :
    s.response_time_sla < t.THRESHOLD_SLA_ATTAINMENT := by
  unfold identify_gaps at hg
  split_ifs at hg <;> simp_all <;> aesop

/-- C6: lowering one named threshold, all others unchanged, leaves the gaps of
every other signal exactly as they were, and can only remove (never create)
the gap of the lowered signal: a gap for that signal under the lowered
configuration implies one was already present under the original one. -/
theorem identify_gaps_monotone_in_threshold (s : Signals) (t t' : Thresholds)
    (n : ThresholdName)
    (hag : ∀ m : ThresholdName, m ≠ n → m.value t' = m.value t)
    (hlow : n.value t' ≤ n.value t) :
    ((identify_gaps s t').filter (fun g => g.signal != n.signalName) =
      (identify_gaps s t).filter (fun g => g.signal != n.signalName)) ∧
    ((∃ g ∈ identify_gaps s t', g.signal = n.signalName) →
      ∃ g ∈ identify_gaps s t, g.signal = n.signalName) := by
  cases n with
  | patch =>
    have hb := hag .backup (by simp)
    have he := hag .edr (by simp)
    have hs := hag .sla (by simp)
    simp only [ThresholdName.value] at hb he hs hlow
    refine ⟨?_, ?_⟩
    · unfold identify_gaps
      simp only [ThresholdName.signalName]
      rw [hb, he, hs]
      split_ifs <;> simp [List.filter_append, List.filter]
    · intro ⟨g, hg, hsig⟩
      have hcond := signal_patch_mem s t' g hg (by simpa using hsig)
      have hc2 : s.patch_compliance < t.THRESHOLD_PATCH_COMPLIANCE :=
        lt_of_lt_of_le hcond hlow
      refine ⟨⟨"Protect", "patch_compliance", s.patch_compliance,
        t.THRESHOLD_PATCH_COMPLIANCE, "High",
        "Patch compliance below best practice threshold",
        "Increased vulnerability to known exploits and security breaches"⟩, ?_, rfl⟩
      unfold identify_gaps
      rw [if_pos hc2]
      simp
  | backup =>
    have hp := hag .patch (by simp)
    have he := hag .edr (by simp)
    have hs := hag .sla (by simp)
    simp only [ThresholdName.value] at hp he hs hlow
    refine ⟨?_, ?_⟩
    · unfold identify_gaps
      simp only [ThresholdName.signalName]
      rw [hp, he, hs]
      split_ifs <;> simp [List.filter_append, List.filter]
    · intro ⟨g, hg, hsig⟩
      have hcond := signal_backup_mem s t' g hg (by simpa using hsig)
      have hc2 : s.backup_status < t.THRESHOLD_BACKUP_SUCCESS :=
        lt_of_lt_of_le hcond hlow
      refine ⟨⟨"Recover", "backup_status", s.backup_status,
        t.THRESHOLD_BACKUP_SUCCESS, "Critical",
        "Backup coverage below best practice threshold",
        "Risk of data loss and extended downtime in disaster scenarios"⟩, ?_, rfl⟩
      unfold identify_gaps
      rw [if_pos hc2]
      simp
  | edr =>
    have hp := hag .patch (by simp)
    have hb := hag .backup (by simp)
    have hs := hag .sla (by simp)
    simp only [ThresholdName.value] at hp hb hs hlow
    refine ⟨?_, ?_⟩
    · unfold identify_gaps
      simp only [ThresholdName.signalName]
      rw [hp, hb, hs]
      split_ifs <;> simp [List.filter_append, List.filter]
    · intro ⟨g, hg, hsig⟩
      have hcond := signal_edr_mem s t' g hg (by simpa using hsig)
      have hc2 : s.edr < t.THRESHOLD_EDR_COVERAGE := lt_of_lt_of_le hcond hlow
      refine ⟨⟨"Protect/Detect", "edr", s.edr, t.THRESHOLD_EDR_COVERAGE, "High",
        "EDR/Antivirus coverage below best practice threshold",
        "Limited threat detection and response capabilities"⟩, ?_, rfl⟩
      unfold identify_gaps
      rw [if_pos hc2]
      simp
  | sla =>
    have hp := hag .patch (by simp)
    have hb := hag .backup (by simp)
    have he := hag .edr (by simp)
    simp only [ThresholdName.value] at hp hb he hlow
    refine ⟨?_, ?_⟩
    · unfold identify_gaps
      simp only [ThresholdName.signalName]
      rw [hp, hb, he]
      split_ifs <;> simp [List.filter_append, List.filter]
    · intro ⟨g, hg, hsig⟩
      have hcond := signal_sla_mem s t' g hg (by simpa using hsig)
      have hc2 : s.response_time_sla < t.THRESHOLD_SLA_ATTAINMENT :=
        lt_of_lt_of_le hcond hlow
      refine ⟨⟨"Respond", "response_time_sla", s.response_time_sla,
        t.THRESHOLD_SLA_ATTAINMENT, "Medium",
        "SLA attainment below target",
        "Delayed incident response affecting business operations"⟩, ?_, rfl⟩
      unfold identify_gaps
      rw [if_pos hc2]
      simp

/-- C6 witness: lowering the patch threshold from 90 to 80 with
`patch_compliance = 85` (the patch gap disappears, nothing else changes). -/
theorem identify_gaps_monotone_in_threshold_witness :
    ((identify_gaps ⟨85, 0, 0, 0, 0, 0, 0, 0, 0, 0⟩ ⟨80, 90, 90, 90⟩).filter
        (fun g => g.signal != ThresholdName.patch.signalName) =
      (identify_gaps ⟨85, 0, 0, 0, 0, 0, 0, 0, 0, 0⟩ ⟨90, 90, 90, 90⟩).filter
        (fun g => g.signal != ThresholdName.patch.signalName)) ∧
    ((∃ g ∈ identify_gaps ⟨85, 0, 0, 0, 0, 0, 0, 0, 0, 0⟩ ⟨80, 90, 90, 90⟩,
        g.signal = ThresholdName.patch.signalName) →
      ∃ g ∈ identify_gaps ⟨85, 0, 0, 0, 0, 0, 0, 0, 0, 0⟩ ⟨90, 90, 90, 90⟩,
        g.signal = ThresholdName.patch.signalName) :=
  identify_gaps_monotone_in_threshold ⟨85, 0, 0, 0, 0, 0, 0, 0, 0, 0⟩
    ⟨90, 90, 90, 90⟩ ⟨80, 90, 90, 90⟩ .patch
    (by intro m hm; cases m <;> simp_all [ThresholdName.value])
    (by norm_num [ThresholdName.value])

/-- C10: each percentage interpolation of `get_budget_recommendation` is only
produced under the guard of its branch, which makes its denominator strictly
positive: the partial-Tier-3 value arises only when tier1_2 ≤ budget <
all_tiers, the partial-Tier-2 value only when tier1 ≤ budget < tier1_2, so
neither division can be a division by zero. -/
theorem get_budget_recommendation_division_guards
    (budget tier1 tier1_2 all_tiers b pct : ℚ) :
    (get_budget_recommendation budget tier1 tier1_2 all_tiers =
        .tier3Fraction b pct →
      0 < all_tiers - tier1_2 ∧ tier1_2 ≤ budget ∧ budget < all_tiers ∧
        pct = (budget - tier1_2) / (all_tiers - tier1_2) * 100) ∧
    (get_budget_recommendation budget tier1 tier1_2 all_tiers =
        .tier2Fraction b pct →
      0 < tier1_2 - tier1 ∧ tier1 ≤ budget ∧ budget < tier1_2 ∧
        pct = (budget - tier1) / (tier1_2 - tier1) * 100) := by
  unfold get_budget_recommendation
  constructor
  · intro h
    split_ifs at h with h1 h2
    rw [BudgetRecommendation.tier3Fraction.injEq] at h
    obtain ⟨rfl, rfl⟩ := h
    exact ⟨by linarith [not_le.mp h1], h2, not_le.mp h1, rfl⟩
  · intro h
    split_ifs at h with h1 h2 h3
    rw [BudgetRecommendation.tier2Fraction.injEq] at h
    obtain ⟨rfl, rfl⟩ := h
    exact ⟨by linarith [not_le.mp h2], h3, not_le.mp h2, rfl⟩

/-- A Critical-severity gap used in the C1 ladder example. -/
def exCriticalGap : Gap := ⟨"", "", 0, 0, "Critical", "critical issue", ""⟩

/-- A High-severity gap used in the C1 ladder example. -/
def exHighGap : Gap := ⟨"", "", 0, 0, "High", "high issue", ""⟩

/-- A Medium-severity gap used in the C1 ladder example. -/
def exMediumGap : Gap := ⟨"", "", 0, 0, "Medium", "medium issue", ""⟩

/-- The C1 example gap list: 2 Critical, 6 High and 3 Medium gaps; at a
current monthly cost of 5000/3 this yields tier costs 1000/2000/500. -/
def exGaps : List Gap :=
  List.replicate 2 exCriticalGap ++ List.replicate 6 exHighGap ++
    List.replicate 3 exMediumGap

/-- C1: `calculate_tiered_budget` partitions the gaps by severity
(Critical → Tier 1 at 30% of current monthly spend per gap, High → Tier 2 at
20%, all others → Tier 3 at 10%), forms the cumulative scenario totals, and
picks the recommendation by the ascending 4-branch ladder with the stated
interpolation percentages; in particular, with tier costs 1000/2000/500
(cumulative 1000/3000/3500) and budget 1500 the chosen branch is
"Tier 1 fully plus partial Tier 2" at 25%. -/
theorem calculate_tiered_budget_ladder (budget : ℚ) (gaps : List Gap)
    (monthly : ℚ) :
    ((calculate_tiered_budget budget gaps monthly).tier1.items =
      (gaps.filter (fun g => g.severity == "Critical")).map
        (fun g => ⟨g.issue, monthly * 0.3⟩)) ∧
    ((calculate_tiered_budget budget gaps monthly).tier2.items =
      (gaps.filter (fun g => g.severity == "High")).map
        (fun g => ⟨g.issue, monthly * 0.2⟩)) ∧
    ((calculate_tiered_budget budget gaps monthly).tier3.items =
      (gaps.filter (fun g => !(g.severity == "Critical") && !(g.severity == "High"))).map
        (fun g => ⟨g.issue, monthly * 0.1⟩)) ∧
    ((calculate_tiered_budget budget gaps monthly).tier1_only =
      (calculate_tiered_budget budget gaps monthly).tier1.cost) ∧
    ((calculate_tiered_budget budget gaps monthly).tier1_and_2 =
      (calculate_tiered_budget budget gaps monthly).tier1.cost +
        (calculate_tiered_budget budget gaps monthly).tier2.cost) ∧
    ((calculate_tiered_budget budget gaps monthly).all_tiers =
      (calculate_tiered_budget budget gaps monthly).tier1.cost +
        (calculate_tiered_budget budget gaps monthly).tier2.cost +
        (calculate_tiered_budget budget gaps monthly).tier3.cost) ∧
    ((calculate_tiered_budget budget gaps monthly).recommendation =
      (if (calculate_tiered_budget budget gaps monthly).all_tiers ≤ budget then
        .allThree budget
      else if (calculate_tiered_budget budget gaps monthly).tier1_and_2 ≤ budget then
        .tier3Fraction budget
          ((budget - (calculate_tiered_budget budget gaps monthly).tier1_and_2) /
            ((calculate_tiered_budget budget gaps monthly).all_tiers -
              (calculate_tiered_budget budget gaps monthly).tier1_and_2) * 100)
      else if (calculate_tiered_budget budget gaps monthly).tier1_only ≤ budget then
        .tier2Fraction budget
          ((budget - (calculate_tiered_budget budget gaps monthly).tier1_only) /
            ((calculate_tiered_budget budget gaps monthly).tier1_and_2 -
              (calculate_tiered_budget budget gaps monthly).tier1_only) * 100)
      else
        .shortfall budget
          ((calculate_tiered_budget budget gaps monthly).tier1_only - budget))) ∧
    ((calculate_tiered_budget 1500 exGaps (5000 / 3)).tier1_only = 1000 ∧
      (calculate_tiered_budget 1500 exGaps (5000 / 3)).tier1_and_2 = 3000 ∧
      (calculate_tiered_budget 1500 exGaps (5000 / 3)).all_tiers = 3500 ∧
      (calculate_tiered_budget 1500 exGaps (5000 / 3)).recommendation =
        .tier2Fraction 1500 25) := by
  refine ⟨rfl, rfl, rfl, rfl, rfl, rfl, ?_, ?_, ?_, ?_, ?_⟩
  · show get_budget_recommendation budget _ _ _ = _
    unfold get_budget_recommendation
    simp only [ge_iff_le]
    rfl
  all_goals norm_num [calculate_tiered_budget, get_budget_recommendation, exGaps,
    exCriticalGap, exHighGap, exMediumGap, List.replicate, List.filter, List.map]

lemma no_edr_item_of_no_endpoints (uc : UnitCosts) (s : Signals) (gaps : List Gap)
    (h0 : s.total_endpoints = 0) :
    ∀ item ∈ (calculate_budget uc s gaps).services,
      item.service ≠ "Endpoint Detection & Response" := by
  intro item hmem
  unfold calculate_budget at hmem
  rw [h0] at hmem
  simp only [lt_self_iff_false, decide_False, Bool.and_false, if_false,
    List.mem_append] at hmem
  split_ifs at hmem <;> simp_all <;> aesop

/-- C9: `total_endpoints` counts only Workstation/Laptop assets while the EDR
percentage ranges over Workstation/Laptop/Server, so when every asset is a
Server the endpoint count used for EDR costing is 0 and `calculate_budget`
emits no EDR line item, even when an `edr` gap is present in the gap list. -/
theorem all_server_assets_no_edr_line_item (customer : Customer)
    (assets : List Asset) (tickets : List Ticket) (users : List User)
    (unit_costs : UnitCosts) (gaps : List Gap)
    (hall : ∀ a ∈ assets, a.type = some "Server") :
    (derive_signals customer assets tickets users).total_endpoints = 0 ∧
    ∀ item ∈ (calculate_budget unit_costs
        (derive_signals customer assets tickets users) gaps).services,
      item.service ≠ "Endpoint Detection & Response" := by
  have h0 : (derive_signals customer assets tickets users).total_endpoints = 0 := by
    show (assets.filter _).length = 0
    rw [List.length_eq_zero, List.filter_eq_nil_iff]
    intro a ha
    rw [hall a ha]
    simp
  exact ⟨h0, no_edr_item_of_no_endpoints _ _ _ h0⟩

/-- C9 witness: two Server assets (an uncovered EDR signal and an `edr` gap
present), yet the budget contains no EDR line item. -/
theorem all_server_assets_no_edr_line_item_witness :
    (derive_signals ⟨none⟩ [⟨some "Server", none, none, none⟩,
        ⟨some "Server", none, none, none⟩] [] []).total_endpoints = 0 ∧
    ∀ item ∈ (calculate_budget ⟨1, 1, 1, 1⟩
        (derive_signals ⟨none⟩ [⟨some "Server", none, none, none⟩,
          ⟨some "Server", none, none, none⟩] [] [])
        [⟨"Protect/Detect", "edr", 0, 95, "High", "EDR coverage low", ""⟩]).services,
      item.service ≠ "Endpoint Detection & Response" :=
  all_server_assets_no_edr_line_item ⟨none⟩
    [⟨some "Server", none, none, none⟩, ⟨some "Server", none, none, none⟩] [] []
    ⟨1, 1, 1, 1⟩ [⟨"Protect/Detect", "edr", 0, 95, "High", "EDR coverage low", ""⟩]
    (by intro a ha; simp at ha; rcases ha with rfl | rfl <;> rfl)

lemma round2_intCast_mul_twelve (k : ℤ) (c : ℚ) (hc : centsOnly c) :
    round2 ((k : ℚ) * c * 12) = round2 ((k : ℚ) * c) * 12 := by
  have hm := centsOnly_intCast_mul k c hc
  rw [round2_eq_self_of_centsOnly (centsOnly_mul_twelve hm),
    round2_eq_self_of_centsOnly hm]

lemma round2_natCast_mul_twelve (k : ℕ) (c : ℚ) (hc : centsOnly c) :
    round2 ((k : ℚ) * c * 12) = round2 ((k : ℚ) * c) * 12 := by
  have h : ((k : ℚ)) = ((k : ℤ) : ℚ) := by push_cast; ring
  rw [h]
  exact round2_intCast_mul_twelve k c hc

lemma round2_mul_twelve_of_round2 (x : ℚ) :
    round2 (round2 x * 12) = round2 x * 12 :=
  round2_eq_self_of_centsOnly (centsOnly_mul_twelve (centsOnly_round2 x))

/-- C5 (amended): `total_annual = total_monthly × 12` holds exactly and
unconditionally (the total is rounded before the multiplication); each line
item satisfies `annual_cost = monthly_cost × 12` exactly whenever every
configured unit cost is a whole number of cents, because then no rounding
ever discards a sub-cent remainder.  (With sub-cent unit costs the per-item
equality can fail, since `monthly_cost` and `annual_cost` are rounded
independently — see the counterexample.) -/
theorem calculate_budget_annual_is_twelve_monthly (uc : UnitCosts) (s : Signals)
    (gaps : List Gap) :
    ((calculate_budget uc s gaps).total_annual =
      (calculate_budget uc s gaps).total_monthly * 12) ∧
    (centsOnly uc.COST_MFA_PER_USER → centsOnly uc.COST_EDR_PER_ENDPOINT →
      centsOnly uc.COST_BACKUP_PER_SERVER → centsOnly uc.COST_SIEM_PER_USER →
      ∀ item ∈ (calculate_budget uc s gaps).services,
        item.annual_cost = item.monthly_cost * 12) := by
  constructor
  · exact round2_mul_twelve_of_round2 _
  · intro hmfa hedr hbak hsiem item hmem
    unfold calculate_budget at hmem
    simp only [List.mem_append] at hmem
    rcases hmem with ((h | h) | h) | h
    · split_ifs at h
      · simp only [List.mem_singleton] at h
        subst h
        exact round2_natCast_mul_twelve s.total_users _ hmfa
      · simp at h
    · split_ifs at h
      · simp only [List.mem_singleton] at h
        subst h
        exact round2_intCast_mul_twelve _ _ hedr
      · simp at h
      · simp at h
    · split_ifs at h
      · simp only [List.mem_singleton] at h
        subst h
        exact round2_intCast_mul_twelve _ _ hbak
      · simp at h
      · simp at h
    · split_ifs at h
      · simp only [List.mem_singleton] at h
        subst h
        exact round2_natCast_mul_twelve s.total_users _ hsiem
      · simp at h

/-- C5 witness: whole-dollar unit costs, two users, an `mfa` gap — the MFA
line item and the totals all satisfy annual = monthly × 12. -/
theorem calculate_budget_annual_is_twelve_monthly_witness :
    (calculate_budget ⟨3, 5, 10, 2⟩ ⟨0, 0, 0, 0, 0, 0, 0, 2, 0, 0⟩
        [⟨"Protect", "mfa", 0, 100, "Critical", "MFA not enforced", "x"⟩]).total_annual =
      (calculate_budget ⟨3, 5, 10, 2⟩ ⟨0, 0, 0, 0, 0, 0, 0, 2, 0, 0⟩
        [⟨"Protect", "mfa", 0, 100, "Critical", "MFA not enforced", "x"⟩]).total_monthly * 12 ∧
    ∀ item ∈ (calculate_budget ⟨3, 5, 10, 2⟩ ⟨0, 0, 0, 0, 0, 0, 0, 2, 0, 0⟩
        [⟨"Protect", "mfa", 0, 100, "Critical", "MFA not enforced", "x"⟩]).services,
      item.annual_cost = item.monthly_cost * 12 :=
  ⟨(calculate_budget_annual_is_twelve_monthly ⟨3, 5, 10, 2⟩ ⟨0, 0, 0, 0, 0, 0, 0, 2, 0, 0⟩
      [⟨"Protect", "mfa", 0, 100, "Critical", "MFA not enforced", "x"⟩]).1,
    (calculate_budget_annual_is_twelve_monthly ⟨3, 5, 10, 2⟩ ⟨0, 0, 0, 0, 0, 0, 0, 2, 0, 0⟩
      [⟨"Protect", "mfa", 0, 100, "Critical", "MFA not enforced", "x"⟩]).2
      (by norm_num [centsOnly]) (by norm_num [centsOnly])
      (by norm_num [centsOnly]) (by norm_num [centsOnly])⟩

/-- C5 counterexample: with a sub-cent unit cost (1.0042 per user for MFA),
one user and an `mfa` gap, the MFA line item has `monthly_cost = 1.00` but
`annual_cost = 12.05 ≠ 1.00 × 12`: the claim's exact per-item equality fails
because the two fields are rounded independently. -/
theorem calculate_budget_annual_ne_twelve_monthly :
    ¬ (∀ item ∈ (calculate_budget ⟨10042/10000, 1, 1, 1⟩ ⟨0, 0, 0, 0, 0, 0, 0, 1, 0, 0⟩
        [⟨"Protect", "mfa", 0, 100, "Critical", "MFA not enforced", "x"⟩]).services,
      item.annual_cost = item.monthly_cost * 12) := by
  intro h
  have hserv : (calculate_budget ⟨10042/10000, 1, 1, 1⟩ ⟨0, 0, 0, 0, 0, 0, 0, 1, 0, 0⟩
      [⟨"Protect", "mfa", 0, 100, "Critical", "MFA not enforced", "x"⟩]).services =
      [⟨"Multi-Factor Authentication", "per user", 1, 10042/10000, 1, 1205/100, none⟩] := by
    norm_num [calculate_budget, round2, round_eq]
  have := h _ (hserv ▸ List.mem_singleton_self _)
  norm_num at this

/-- C8 (amended): the health score starts at 100 with deductions −30 (no
active agreement), −25/−15 (no meetings / fewer than 2), −25/−10 (no reports /
fewer than 2) and −20/−10 (security posture of the *first report in the list
as passed*, below 50 / below 70), floored at 0, with status banded at
80/60/40 on the un-floored value.  The code reads `reports[0]`, not the
report with the most recent `generated_at` timestamp. -/
theorem health_score_first_report_deductions (ags : List Agreement)
    (mts : List Meeting) (rs : List Report) :
    (calculate_health_score ags mts rs).score =
      max 0 ((100 -
        (if ags.any (fun a => a.status == some "active") then 0 else 30) -
        (if mts.length = 0 then 25 else if mts.length < 2 then 15 else 0) -
        (if rs.length = 0 then 25 else if rs.length < 2 then 10 else 0) -
        (match rs.head? with
         | none => 0
         | some r =>
           if r.overall_score.getD 0 < 50 then 20
           else if r.overall_score.getD 0 < 70 then 10 else 0) : ℤ)) ∧
    (calculate_health_score ags mts rs).status =
      (if (100 -
        (if ags.any (fun a => a.status == some "active") then 0 else 30) -
        (if mts.length = 0 then 25 else if mts.length < 2 then 15 else 0) -
        (if rs.length = 0 then 25 else if rs.length < 2 then 10 else 0) -
        (match rs.head? with
         | none => 0
         | some r =>
           if r.overall_score.getD 0 < 50 then 20
           else if r.overall_score.getD 0 < 70 then 10 else 0) : ℤ) ≥ 80 then
        "excellent"
      else if (100 -
        (if ags.any (fun a => a.status == some "active") then 0 else 30) -
        (if mts.length = 0 then 25 else if mts.length < 2 then 15 else 0) -
        (if rs.length = 0 then 25 else if rs.length < 2 then 10 else 0) -
        (match rs.head? with
         | none => 0
         | some r =>
           if r.overall_score.getD 0 < 50 then 20
           else if r.overall_score.getD 0 < 70 then 10 else 0) : ℤ) ≥ 60 then
        "good"
      else if (100 -
        (if ags.any (fun a => a.status == some "active") then 0 else 30) -
        (if mts.length = 0 then 25 else if mts.length < 2 then 15 else 0) -
        (if rs.length = 0 then 25 else if rs.length < 2 then 10 else 0) -
        (match rs.head? with
         | none => 0
         | some r =>
           if r.overall_score.getD 0 < 50 then 20
           else if r.overall_score.getD 0 < 70 then 10 else 0) : ℤ) ≥ 40 then
        "at_risk"
      else "critical") := by
  have hA : (if ags.isEmpty || !(ags.any (fun a => a.status == some "active")) then
        ((30 : ℤ), ["No active agreements"]) else (0, [])).1 =
      (if ags.any (fun a => a.status == some "active") then 0 else 30) := by
    cases hag : ags.any (fun a => a.status == some "active") with
    | false => simp [hag]
    | true =>
      have : ¬ ags.isEmpty := by
        cases ags with
        | nil => simp at hag
        | cons a l => simp
      simp [hag, this]
  have hM : (if mts.isEmpty then ((25 : ℤ), ["No recent meetings"])
        else if mts.length < 2 then (15, ["Low meeting frequency"]) else (0, [])).1 =
      (if mts.length = 0 then 25 else if mts.length < 2 then 15 else 0) := by
    rcases mts with _ | ⟨m, l⟩
    · rfl
    · show (if (m :: l).length < 2 then ((15 : ℤ), ["Low meeting frequency"]) else (0, [])).1 =
        (if (m :: l).length < 2 then (15 : ℤ) else 0)
      split_ifs <;> rfl
  have hR : (if rs.isEmpty then ((25 : ℤ), ["No reports generated"])
        else if rs.length < 2 then (10, ["Infrequent reporting"]) else (0, [])).1 =
      (if rs.length = 0 then 25 else if rs.length < 2 then 10 else 0) := by
    rcases rs with _ | ⟨r, l⟩
    · rfl
    · show (if (r :: l).length < 2 then ((10 : ℤ), ["Infrequent reporting"]) else (0, [])).1 =
        (if (r :: l).length < 2 then (10 : ℤ) else 0)
      split_ifs <;> rfl
  have hS : (match rs with
      | [] => ((0 : ℤ), ([] : List String))
      | latest_report :: _ =>
        if latest_report.overall_score.getD 0 < 50 then (20, ["Poor security posture"])
        else if latest_report.overall_score.getD 0 < 70 then (10, ["Below-average security"])
        else (0, [])).1 =
      (match rs.head? with
       | none => 0
       | some r =>
         if r.overall_score.getD 0 < 50 then 20
         else if r.overall_score.getD 0 < 70 then 10 else 0) := by
    rcases rs with _ | ⟨r, l⟩
    · rfl
    · simp only [List.head?_cons]
      split_ifs <;> rfl
  constructor
  · simp only [calculate_health_score]
    rw [hA, hM, hR, hS]
  · simp only [calculate_health_score]
    rw [hA, hM, hR, hS]

/-- C8 counterexample: two reports, the first in the list older (timestamp
100) with score 90, the second most recent (timestamp 200) with score 40.
The code deducts nothing (it reads `reports[0]`, score 90) giving 100; the
claim's timestamp-latest reading (score 40 < 50) would deduct 20 and give 80. -/
theorem health_score_not_by_timestamp :
    (calculate_health_score [⟨some "active"⟩] [⟨none⟩, ⟨none⟩]
        [⟨some 100, some 90⟩, ⟨some 200, some 40⟩]).score = 100 ∧
    (calculate_health_score_claimed [⟨some "active"⟩] [⟨none⟩, ⟨none⟩]
        [⟨some 100, some 90⟩, ⟨some 200, some 40⟩]).score = 80 ∧
    (calculate_health_score [⟨some "active"⟩] [⟨none⟩, ⟨none⟩]
          [⟨some 100, some 90⟩, ⟨some 200, some 40⟩]).score ≠
      (calculate_health_score_claimed [⟨some "active"⟩] [⟨none⟩, ⟨none⟩]
          [⟨some 100, some 90⟩, ⟨some 200, some 40⟩]).score := by
  refine ⟨?_, ?_, ?_⟩ <;>
    norm_num [calculate_health_score, calculate_health_score_claimed, latestByGeneratedAt]

end SBR
